import Mathlib

/-!
Shallow embedding of the restaurant booking domain model (`src/models.py`).

Python objects (`Table`, `Booking`) live on a heap and are compared by
identity; we model this with a `Restaurant` state holding two append-only
heaps (`tableHeap`, `bookingHeap`) indexed by natural-number references,
plus the restaurant's own `_tables` / `_bookings` lists as lists of
references.  `datetime` values are modelled as integers (only order is
used by the code).  Python `ValueError` raised by validation is modelled
as `Except ValidationError`; methods that mutate state are state
transformers returning a result together with the next state.
-/

namespace RestaurantModel

/-- Python `ValueError` message raised by validation code. -/
abbrev ValidationError := String

instance {ε α : Type} [DecidableEq ε] [DecidableEq α] :
    DecidableEq (Except ε α) := fun x y =>
  match x, y with
  | .error a, .error b => decidable_of_iff (a = b) (by simp)
  | .error _, .ok _ => isFalse (fun hc => Except.noConfusion hc)
  | .ok _, .error _ => isFalse (fun hc => Except.noConfusion hc)
  | .ok a, .ok b => decidable_of_iff (a = b) (by simp)

/-- Python `str.strip()`: drop leading and trailing whitespace. -/
def pyStrip (s : String) : String :=
  ⟨((s.data.dropWhile Char.isWhitespace).reverse.dropWhile
      Char.isWhitespace).reverse⟩

/-- Python truth test `not value or not value.strip()` used by the
string-field setters: the string is empty or whitespace-only. -/
def isBlank (s : String) : Bool := s == "" || pyStrip s == ""

/-- State of one `Table` object (`models.py`, class `Table`).
`current_booking` is a reference (heap index) to a `Booking` object,
matching the Python attribute that stores an object reference. -/
structure TableObj where
  table_id : Nat
  name : String
  seats : Int
  is_occupied : Bool
  current_booking : Option Nat
  deriving Repr, DecidableEq

instance : Inhabited TableObj := ⟨⟨0, "", 0, false, none⟩⟩

/-- State of one `Booking` object (`models.py`, class `Booking`).
`table` is a reference (heap index) to a `Table` object. -/
structure BookingObj where
  booking_id : Nat
  guest_name : String
  phone : String
  table : Nat
  start_time : Int
  end_time : Int
  is_active : Bool
  deriving Repr, DecidableEq

instance : Inhabited BookingObj := ⟨⟨0, "", "", 0, 0, 0, false⟩⟩

/-- `Table.__init__` (models.py lines 11-24): assigns the private fields
`_table_id`, `_name`, `_seats` directly, sets `_is_occupied = False` and
`_current_booking = None`.  Note: it does not go through the validating
property setters. -/
def TableObj.init (table_id : Nat) (name : String) (seats : Int) : TableObj :=
  { table_id := table_id, name := name, seats := seats,
    is_occupied := false, current_booking := none }

/-- `Table.name` setter: rejects empty / whitespace-only names, stores the
trimmed value. -/
def TableObj.setName (t : TableObj) (value : String) :
    Except ValidationError TableObj :=
  if isBlank value then .error "Table name cannot be empty"
  else .ok { t with name := pyStrip value }

/-- `Table.seats` setter: rejects non-positive seat counts. -/
def TableObj.setSeats (t : TableObj) (value : Int) :
    Except ValidationError TableObj :=
  if value ≤ 0 then .error "Number of seats must be positive"
  else .ok { t with seats := value }

/-- `Table.occupy(booking=None)`: sets the occupied flag and stores the
given booking reference (or none for walk-ins). -/
def TableObj.occupy (t : TableObj) (booking : Option Nat := none) : TableObj :=
  { t with is_occupied := true, current_booking := booking }

/-- `Table.release()`: clears the occupied flag and the booking reference. -/
def TableObj.release (t : TableObj) : TableObj :=
  { t with is_occupied := false, current_booking := none }

/-- `Booking.__init__` (models.py lines 89-108).  The constructor assigns
through the validating property setters in this order: `guest_name`,
`phone`, (`_table` directly), `start_time`, `end_time`.  Each setter
raises `ValueError` on its first violated rule; `now` is the current
clock value used by the `start_time` setter's past check. -/
def mkBooking (booking_id : Nat) (guest_name phone : String) (table : Nat)
    (start_time end_time now : Int) : Except ValidationError BookingObj :=
  if isBlank guest_name then .error "Guest name cannot be empty"
  else if isBlank phone then .error "Phone cannot be empty"
  else if start_time < now then .error "Start time cannot be in the past"
  else if end_time ≤ start_time then .error "End time must be after start time"
  else .ok { booking_id := booking_id, guest_name := pyStrip guest_name,
             phone := pyStrip phone, table := table, start_time := start_time,
             end_time := end_time, is_active := true }

/-- `Booking.start_time` setter: rejects values before the current time
`now`; it does not look at `end_time`. -/
def BookingObj.set_start_time (b : BookingObj) (now value : Int) :
    Except ValidationError BookingObj :=
  if value < now then .error "Start time cannot be in the past"
  else .ok { b with start_time := value }

/-- `Booking.end_time` setter: rejects values not strictly after the
current `start_time`. -/
def BookingObj.set_end_time (b : BookingObj) (value : Int) :
    Except ValidationError BookingObj :=
  if value ≤ b.start_time then .error "End time must be after start time"
  else .ok { b with end_time := value }

/-- State of a `Restaurant` (models.py lines 192-298) together with the
heaps of all `Table` and `Booking` objects ever constructed.  Heaps are
append-only, so a reference stays valid even after the object leaves the
restaurant's `_tables` list (Python objects survive list removal). -/
structure Restaurant where
  tableHeap : List TableObj
  bookingHeap : List BookingObj
  tables : List Nat
  bookings : List Nat
  next_table_id : Nat
  next_booking_id : Nat
  deriving Repr, DecidableEq

/-- `Restaurant.__init__`: empty collections, both id counters start at 1. -/
def Restaurant.empty : Restaurant :=
  { tableHeap := [], bookingHeap := [], tables := [], bookings := [],
    next_table_id := 1, next_booking_id := 1 }

/-- Dereference a table reference. -/
def Restaurant.tableAt (s : Restaurant) (r : Nat) : TableObj :=
  s.tableHeap.getD r default

/-- Dereference a booking reference. -/
def Restaurant.bookingAt (s : Restaurant) (r : Nat) : BookingObj :=
  s.bookingHeap.getD r default

/-- Overwrite the table object behind reference `r` (a mutation of that
Python object in place). -/
def Restaurant.setTableObj (s : Restaurant) (r : Nat) (t : TableObj) :
    Restaurant :=
  { s with tableHeap := s.tableHeap.set r t }

/-- Overwrite the booking object behind reference `r`. -/
def Restaurant.setBookingObj (s : Restaurant) (r : Nat) (b : BookingObj) :
    Restaurant :=
  { s with bookingHeap := s.bookingHeap.set r b }

/-- The `Restaurant.bookings` property: the active bookings, in creation
order (`[b for b in self._bookings if b.is_active]`). -/
def Restaurant.activeBookings (s : Restaurant) : List Nat :=
  s.bookings.filter (fun r => (s.bookingAt r).is_active)

/-- `Restaurant.add_table` (models.py lines 212-217): constructs
`Table(self._next_table_id, name, seats)` — note `Table.__init__`
performs no validation — appends it to `_tables`, increments the id
counter and returns the new table('s reference). -/
def Restaurant.add_table (s : Restaurant) (name : String) (seats : Int) :
    Nat × Restaurant :=
  let t := TableObj.init s.next_table_id name seats
  let ref := s.tableHeap.length
  (ref, { s with tableHeap := s.tableHeap ++ [t], tables := s.tables ++ [ref],
                 next_table_id := s.next_table_id + 1 })

/-- `Restaurant.find_table_by_id`: first table in `_tables` with the given
id, or none. -/
def Restaurant.find_table_by_id (s : Restaurant) (table_id : Nat) :
    Option Nat :=
  s.tables.find? (fun r => (s.tableAt r).table_id == table_id)

/-- `Restaurant.remove_table` (models.py lines 219-225): if the table is
found and not occupied, remove it (first identical element, Python
`list.remove`) and return true; otherwise return false without change. -/
def Restaurant.remove_table (s : Restaurant) (table_id : Nat) :
    Bool × Restaurant :=
  match s.find_table_by_id table_id with
  | some r =>
      if (s.tableAt r).is_occupied then (false, s)
      else (true, { s with tables := s.tables.erase r })
  | none => (false, s)

/-- The per-booking conflict test inside `Restaurant._is_table_occupied`:
`booking.table == table and booking.is_active and
not (end_time <= booking.start_time or start_time >= booking.end_time)`.
`booking.table == table` is Python object identity, i.e. reference
equality. -/
def bookingConflicts (b : BookingObj) (tref : Nat)
    (start_time end_time : Int) : Bool :=
  b.table == tref && b.is_active &&
    !(decide (end_time ≤ b.start_time) || decide (start_time ≥ b.end_time))

/-- `Restaurant._is_table_occupied` (models.py lines 247-254): scans the
active bookings (the `bookings` property) for a conflict; if none is
found, falls back to the table's `occupied` flag. -/
def Restaurant.is_table_occupied (s : Restaurant) (tref : Nat)
    (start_time end_time : Int) : Bool :=
  (s.activeBookings.any fun r =>
    bookingConflicts (s.bookingAt r) tref start_time end_time)
  || (s.tableAt tref).is_occupied

/-- `Restaurant.create_booking` (models.py lines 231-245): none when the
table id is unknown; none when `_is_table_occupied`; otherwise construct
a `Booking` (whose validation may raise, propagated with the restaurant
state untouched) and on success append it, increment the id counter and
return it. -/
def Restaurant.create_booking (s : Restaurant) (guest_name phone : String)
    (table_id : Nat) (start_time end_time now : Int) :
    Except ValidationError (Option Nat) × Restaurant :=
  match s.find_table_by_id table_id with
  | none => (.ok none, s)
  | some tref =>
      if s.is_table_occupied tref start_time end_time then (.ok none, s)
      else
        match mkBooking s.next_booking_id guest_name phone tref
            start_time end_time now with
        | .error e => (.error e, s)
        | .ok b =>
            let ref := s.bookingHeap.length
            (.ok (some ref),
             { s with bookingHeap := s.bookingHeap ++ [b],
                      bookings := s.bookings ++ [ref],
                      next_booking_id := s.next_booking_id + 1 })

/-- `Booking.cancel` (models.py lines 173-177) as a state transformer on
the restaurant heap: set `_is_active = False`; then, if the referenced
table's `current_booking` is identically this booking, release the
table. -/
def Restaurant.cancelBookingObj (s : Restaurant) (r : Nat) : Restaurant :=
  let b := s.bookingAt r
  let s1 := s.setBookingObj r { b with is_active := false }
  let t := s1.tableAt b.table
  if t.current_booking == some r then s1.setTableObj b.table t.release
  else s1

/-- `Restaurant.cancel_booking` (models.py lines 292-298): finds the
booking (in the full `_bookings` history) and cancels it when still
active. -/
def Restaurant.cancel_booking (s : Restaurant) (booking_id : Nat) :
    Bool × Restaurant :=
  match s.bookings.find? (fun r => (s.bookingAt r).booking_id == booking_id) with
  | some r =>
      if (s.bookingAt r).is_active then (true, s.cancelBookingObj r)
      else (false, s)
  | none => (false, s)

/-- `Restaurant.occupy_table_directly` (models.py lines 276-282). -/
def Restaurant.occupy_table_directly (s : Restaurant) (table_id : Nat) :
    Bool × Restaurant :=
  match s.find_table_by_id table_id with
  | some r =>
      if (s.tableAt r).is_occupied then (false, s)
      else (true, s.setTableObj r ((s.tableAt r).occupy none))
  | none => (false, s)

/-- `Restaurant.release_table` (models.py lines 284-290). -/
def Restaurant.release_table (s : Restaurant) (table_id : Nat) :
    Bool × Restaurant :=
  match s.find_table_by_id table_id with
  | some r =>
      if (s.tableAt r).is_occupied then (true, s.setTableObj r (s.tableAt r).release)
      else (false, s)
  | none => (false, s)

/-- One public mutating `Restaurant` operation, for stating invariants
over arbitrary operation sequences. -/
inductive Op where
  | addTable (name : String) (seats : Int)
  | removeTable (table_id : Nat)
  | createBooking (guest_name phone : String) (table_id : Nat)
      (start_time end_time now : Int)
  | cancelBooking (booking_id : Nat)
  | occupyDirect (table_id : Nat)
  | releaseTable (table_id : Nat)

/-- Effect of one operation on the restaurant state. -/
def Restaurant.step (s : Restaurant) : Op → Restaurant
  | .addTable n k => (s.add_table n k).2
  | .removeTable i => (s.remove_table i).2
  | .createBooking g p i a b n => (s.create_booking g p i a b n).2
  | .cancelBooking i => (s.cancel_booking i).2
  | .occupyDirect i => (s.occupy_table_directly i).2
  | .releaseTable i => (s.release_table i).2

/-- Every booking in the restaurant's `_bookings` list references a table
still present in the `_tables` list (the "bookings are not orphaned"
invariant of the spec). -/
def Restaurant.bookingsNotOrphaned (s : Restaurant) : Bool :=
  s.bookings.all fun r => s.tables.contains (s.bookingAt r).table

/-- A successful `Booking` construction yields exactly the record built
from the (trimmed) arguments. -/
lemma mkBooking_ok_eq {booking_id : Nat} {g p : String} {t : Nat}
    {st et now : Int} {b : BookingObj}
    (h : mkBooking booking_id g p t st et now = .ok b) :
    b = { booking_id := booking_id, guest_name := pyStrip g,
          phone := pyStrip p, table := t, start_time := st,
          end_time := et, is_active := true } := by
  unfold mkBooking at h
  split_ifs at h
  injection h with h
  exact h.symm

/-- `getD` on a one-element extension of a list. -/
lemma getD_concat {α : Type} (l : List α) (b : α) (r : Nat) (d : α) :
    (l ++ [b]).getD r d =
      if r < l.length then l.getD r d
      else if r = l.length then b else d := by
  rcases lt_trichotomy r l.length with h | h | h
  · rw [if_pos h, List.getD_eq_getElem?_getD, List.getD_eq_getElem?_getD,
      List.getElem?_append_left h]
  · subst h
    simp [List.getD_eq_getElem?_getD, List.getElem?_concat_length]
  · rw [if_neg (by omega), if_neg (by omega), List.getD_eq_getElem?_getD,
      List.getElem?_len_le (by simp; omega)]
    rfl

/-- `getD` after `set`. -/
lemma getD_set {α : Type} (l : List α) (r q : Nat) (x : α) (d : α) :
    (l.set r x).getD q d =
      if r = q ∧ r < l.length then x else l.getD q d := by
  rw [List.getD_eq_getElem?_getD, List.getD_eq_getElem?_getD,
    List.getElem?_set]
  by_cases h1 : r = q
  · subst h1
    by_cases h2 : r < l.length
    · simp [h2]
    · simp [h2, List.getElem?_len_le (by omega : l.length ≤ r)]
  · simp [h1]

/-- C1: evaluation of the code at a rule-violating input.  `add_table`
with a whitespace-only name and zero seats raises no `ValidationError`:
it appends the invalid table to the collection, consumes table id 1 and
returns the table — even though the `Table` name/seats setters (the
"Table construction rules") reject exactly these values.
`Table.__init__` assigns the private fields directly, bypassing the
validating setters, so the validation the spec promises never runs. -/
theorem C1_add_table_skips_validation :
    ((Restaurant.empty.add_table "   " 0).2.tables.length = 1 ∧
      (Restaurant.empty.add_table "   " 0).2.tableAt
          (Restaurant.empty.add_table "   " 0).1 =
        { table_id := 1, name := "   ", seats := 0, is_occupied := false,
          current_booking := none } ∧
      (Restaurant.empty.add_table "   " 0).2.next_table_id = 2) ∧
    (TableObj.setName default "   " = .error "Table name cannot be empty" ∧
      TableObj.setSeats default 0 = .error "Number of seats must be positive") := by
  decide

/-- C2: the availability predicate uses half-open interval semantics.
A booking conflicts with a request `[st, et)` on table `tref` exactly
when it is on that table, active, and `st < booking.end_time ∧
booking.start_time < et`; and `_is_table_occupied` is true exactly when
the table's occupied flag is set or some booking in the collection
conflicts in that sense.  Adjacent intervals (`et = booking.start_time`
or `st = booking.end_time`) therefore do not conflict, while contained
and partially overlapping intervals do. -/
theorem C2_half_open_overlap (s : Restaurant) (tref : Nat) (st et : Int) :
    (∀ b : BookingObj, bookingConflicts b tref st et = true ↔
        b.table = tref ∧ b.is_active = true ∧
          st < b.end_time ∧ b.start_time < et) ∧
    (s.is_table_occupied tref st et = true ↔
        ((s.tableAt tref).is_occupied = true ∨
          ∃ r ∈ s.bookings, (s.bookingAt r).is_active = true ∧
            (s.bookingAt r).table = tref ∧
            st < (s.bookingAt r).end_time ∧
            (s.bookingAt r).start_time < et)) := by
  have hconf : ∀ b : BookingObj, bookingConflicts b tref st et = true ↔
      b.table = tref ∧ b.is_active = true ∧
        st < b.end_time ∧ b.start_time < et := by
    intro b
    simp only [bookingConflicts, Bool.and_eq_true, beq_iff_eq,
      Bool.not_eq_true', Bool.or_eq_false_iff, decide_eq_false_iff_not,
      not_le, not_lt, ge_iff_le]
    constructor
    · rintro ⟨⟨ht, ha⟩, h1, h2⟩
      exact ⟨ht, ha, by omega, by omega⟩
    · rintro ⟨ht, ha, h1, h2⟩
      exact ⟨⟨ht, ha⟩, by omega, by omega⟩
  refine ⟨hconf, ?_⟩
  simp only [Restaurant.is_table_occupied, Restaurant.activeBookings,
    Bool.or_eq_true, List.any_eq_true, List.mem_filter]
  constructor
  · rintro (⟨r, ⟨hmem, hact⟩, hc⟩ | hocc)
    · rcases (hconf (s.bookingAt r)).1 hc with ⟨ht, ha, h1, h2⟩
      exact Or.inr ⟨r, hmem, ha, ht, h1, h2⟩
    · exact Or.inl hocc
  · rintro (hocc | ⟨r, hmem, ha, ht, h1, h2⟩)
    · exact Or.inr hocc
    · exact Or.inl ⟨r, ⟨hmem, ha⟩, (hconf (s.bookingAt r)).2 ⟨ht, ha, h1, h2⟩⟩

/-- C4: `Booking` construction validates in the order guest name → phone
→ start time not in the past → end time strictly after start time,
raising `ValidationError` on the first violated rule so that no booking
value is produced; in particular every input with `end_time ≤
start_time` fails, and when all rules pass the constructed booking is
returned. -/
theorem C4_booking_ctor_validation (booking_id : Nat) (g p : String)
    (t : Nat) (st et now : Int) :
    (isBlank g = true →
      mkBooking booking_id g p t st et now =
        .error "Guest name cannot be empty") ∧
    (isBlank g = false → isBlank p = true →
      mkBooking booking_id g p t st et now =
        .error "Phone cannot be empty") ∧
    (isBlank g = false → isBlank p = false → st < now →
      mkBooking booking_id g p t st et now =
        .error "Start time cannot be in the past") ∧
    (isBlank g = false → isBlank p = false → now ≤ st → et ≤ st →
      mkBooking booking_id g p t st et now =
        .error "End time must be after start time") ∧
    (et ≤ st → ∀ b, mkBooking booking_id g p t st et now ≠ .ok b) ∧
    (isBlank g = false → isBlank p = false → now ≤ st → st < et →
      mkBooking booking_id g p t st et now =
        .ok { booking_id := booking_id, guest_name := pyStrip g,
              phone := pyStrip p, table := t, start_time := st,
              end_time := et, is_active := true }) := by
  refine ⟨fun hg => by simp [mkBooking, hg],
          fun hg hp => by simp [mkBooking, hg, hp],
          fun hg hp hst => by simp [mkBooking, hg, hp, hst],
          fun hg hp hst het => by
            have h3 : ¬st < now := by omega
            simp [mkBooking, hg, hp, h3, het],
          fun het b hc => ?_,
          fun hg hp hst het => by
            have h3 : ¬st < now := by omega
            have h4 : ¬et ≤ st := by omega
            simp [mkBooking, hg, hp, h3, h4]⟩
  unfold mkBooking at hc
  split_ifs at hc

/-- C4 witness: the concrete rules fire as stated — a blank guest name
is rejected first; a fully valid input constructs the booking. -/
theorem C4_booking_ctor_validation_witness :
    mkBooking 1 "   " "+79160000000" 0 10 20 0 =
      .error "Guest name cannot be empty" ∧
    mkBooking 1 " Alice " "+79160000000" 0 10 20 0 =
      .ok { booking_id := 1, guest_name := pyStrip " Alice ",
            phone := pyStrip "+79160000000", table := 0, start_time := 10,
            end_time := 20, is_active := true } :=
  ⟨(C4_booking_ctor_validation 1 "   " "+79160000000" 0 10 20 0).1
      (by decide),
   (C4_booking_ctor_validation 1 " Alice " "+79160000000" 0 10 20 0).2.2.2.2.2
      (by decide) (by decide) (by decide) (by decide)⟩

/-- C6 counterexample: the invariant `end_time > start_time` is NOT
maintained by every permitted field update.  A booking constructed with
`[10, 20)` (at clock 0) accepts the permitted `start_time` update to 25
(the setter only checks the clock), after which `end_time = 20 ≤
start_time = 25`. -/
theorem C6_counterexample_start_time_update :
    mkBooking 1 "Alice" "+79160000000" 0 10 20 0 =
      .ok { booking_id := 1, guest_name := "Alice", phone := "+79160000000",
            table := 0, start_time := 10, end_time := 20,
            is_active := true } ∧
    BookingObj.set_start_time
        { booking_id := 1, guest_name := "Alice", phone := "+79160000000",
          table := 0, start_time := 10, end_time := 20, is_active := true }
        0 25 =
      .ok { booking_id := 1, guest_name := "Alice", phone := "+79160000000",
            table := 0, start_time := 25, end_time := 20,
            is_active := true } ∧
    ¬({ booking_id := 1, guest_name := "Alice", phone := "+79160000000",
        table := 0, start_time := 25, end_time := 20,
        is_active := true } : BookingObj).start_time <
      ({ booking_id := 1, guest_name := "Alice", phone := "+79160000000",
         table := 0, start_time := 25, end_time := 20,
         is_active := true } : BookingObj).end_time := by
  decide

/-- C6 amended: `end_time > start_time` holds after construction and is
preserved by every permitted `end_time` update; it is not preserved by
`start_time` updates, whose setter validates only against the clock. -/
theorem C6_amended_end_after_start (booking_id : Nat) (g p : String)
    (t : Nat) (st et now : Int) (b b1 b2 : BookingObj) (v : Int) :
    (mkBooking booking_id g p t st et now = .ok b →
      b.start_time < b.end_time) ∧
    (BookingObj.set_end_time b1 v = .ok b2 →
      b2.start_time < b2.end_time) := by
  constructor
  · intro h
    have hb := mkBooking_ok_eq h
    subst hb
    simp only
    unfold mkBooking at h
    split_ifs at h with h1 h2 h3 h4
    omega
  · intro h
    unfold BookingObj.set_end_time at h
    split_ifs at h with h1
    injection h with h
    subst h
    simp only
    omega

/-- C6 amended witness: on the concrete booking `[10, 20)` the amended
theorem yields `start_time < end_time` after construction. -/
theorem C6_amended_end_after_start_witness :
    ({ booking_id := 1, guest_name := "Alice", phone := "+79160000000",
       table := 0, start_time := 10, end_time := 20,
       is_active := true } : BookingObj).start_time <
      ({ booking_id := 1, guest_name := "Alice", phone := "+79160000000",
         table := 0, start_time := 10, end_time := 20,
         is_active := true } : BookingObj).end_time :=
  (C6_amended_end_after_start 1 "Alice" "+79160000000" 0 10 20 0
      { booking_id := 1, guest_name := "Alice", phone := "+79160000000",
        table := 0, start_time := 10, end_time := 20, is_active := true }
      default default 0).1 (by decide)

/-- C9: `remove_table` returns false and leaves the state unchanged when
the table id is unknown or the table's occupied flag is set; otherwise
it removes exactly the found table from the collection and returns
true. -/
theorem C9_remove_table (s : Restaurant) (tid : Nat) :
    (s.find_table_by_id tid = none → s.remove_table tid = (false, s)) ∧
    (∀ r, s.find_table_by_id tid = some r →
      (s.tableAt r).is_occupied = true →
      s.remove_table tid = (false, s)) ∧
    (∀ r, s.find_table_by_id tid = some r →
      (s.tableAt r).is_occupied = false →
      s.remove_table tid =
        (true, { s with tables := s.tables.erase r })) := by
  refine ⟨fun h => by simp [Restaurant.remove_table, h],
          fun r h hocc => by simp [Restaurant.remove_table, h, hocc],
          fun r h hocc => by simp [Restaurant.remove_table, h, hocc]⟩

/-- C9 witness: removing the only (unoccupied) table of a one-table
restaurant succeeds and erases it. -/
theorem C9_remove_table_witness :
    (Restaurant.empty.add_table "Window" 2).2.remove_table 1 =
      (true, { (Restaurant.empty.add_table "Window" 2).2 with
               tables :=
                 (Restaurant.empty.add_table "Window" 2).2.tables.erase 0 }) :=
  (C9_remove_table (Restaurant.empty.add_table "Window" 2).2 1).2.2 0
    (by decide) (by decide)

/-- `create_booking` never touches the table heap or the table list,
whatever its outcome. -/
lemma create_booking_preserves_tables (s : Restaurant) (g p : String)
    (tid : Nat) (st et now : Int) :
    (s.create_booking g p tid st et now).2.tableHeap = s.tableHeap ∧
    (s.create_booking g p tid st et now).2.tables = s.tables := by
  unfold Restaurant.create_booking
  rcases hf : s.find_table_by_id tid with _ | tref
  · exact ⟨rfl, rfl⟩
  · by_cases hocc : s.is_table_occupied tref st et = true
    · simp [hocc]
    · rcases hmk : mkBooking s.next_booking_id g p tref st et now with e | b
      · simp [hocc, hmk]
      · simp [hocc, hmk]

/-- C5: `create_booking` returns none (state unchanged) when the table
id resolves to no table; returns none (state unchanged) when the table
is occupied over `[st, et)` per `_is_table_occupied`; and otherwise —
when the `Booking` constructor succeeds — appends the newly constructed
booking under the freshly assigned id and returns it. -/
theorem C5_create_booking (s : Restaurant) (g p : String) (tid : Nat)
    (st et now : Int) :
    (s.find_table_by_id tid = none →
      s.create_booking g p tid st et now = (.ok none, s)) ∧
    (∀ tref, s.find_table_by_id tid = some tref →
      s.is_table_occupied tref st et = true →
      s.create_booking g p tid st et now = (.ok none, s)) ∧
    (∀ tref b, s.find_table_by_id tid = some tref →
      s.is_table_occupied tref st et = false →
      mkBooking s.next_booking_id g p tref st et now = .ok b →
      b.booking_id = s.next_booking_id ∧
      s.create_booking g p tid st et now =
        (.ok (some s.bookingHeap.length),
         { s with bookingHeap := s.bookingHeap ++ [b],
                  bookings := s.bookings ++ [s.bookingHeap.length],
                  next_booking_id := s.next_booking_id + 1 }) ∧
      (s.create_booking g p tid st et now).2.bookingAt
          s.bookingHeap.length = b) := by
  refine ⟨fun h => by simp [Restaurant.create_booking, h],
          fun tref h hocc => by simp [Restaurant.create_booking, h, hocc],
          fun tref b h hocc hmk => ?_⟩
  have hb := mkBooking_ok_eq hmk
  refine ⟨by rw [hb], by simp [Restaurant.create_booking, h, hocc, hmk], ?_⟩
  simp [Restaurant.create_booking, h, hocc, hmk, Restaurant.bookingAt,
    getD_concat]

/-- C5 witness: a concrete successful booking on a one-table restaurant
is appended with id 1 and returned. -/
theorem C5_create_booking_witness :
    ({ booking_id := 1, guest_name := "Alice", phone := "+79160000000",
       table := 0, start_time := 10, end_time := 20,
       is_active := true } : BookingObj).booking_id =
      (Restaurant.empty.add_table "Window" 2).2.next_booking_id ∧
    (Restaurant.empty.add_table "Window" 2).2.create_booking
        "Alice" "+79160000000" 1 10 20 0 =
      (.ok (some (Restaurant.empty.add_table "Window" 2).2.bookingHeap.length),
       { (Restaurant.empty.add_table "Window" 2).2 with
         bookingHeap :=
           (Restaurant.empty.add_table "Window" 2).2.bookingHeap ++
             [{ booking_id := 1, guest_name := "Alice",
                phone := "+79160000000", table := 0, start_time := 10,
                end_time := 20, is_active := true }],
         bookings :=
           (Restaurant.empty.add_table "Window" 2).2.bookings ++
             [(Restaurant.empty.add_table "Window" 2).2.bookingHeap.length],
         next_booking_id :=
           (Restaurant.empty.add_table "Window" 2).2.next_booking_id + 1 }) ∧
    ((Restaurant.empty.add_table "Window" 2).2.create_booking
        "Alice" "+79160000000" 1 10 20 0).2.bookingAt
      (Restaurant.empty.add_table "Window" 2).2.bookingHeap.length =
      { booking_id := 1, guest_name := "Alice", phone := "+79160000000",
        table := 0, start_time := 10, end_time := 20, is_active := true } :=
  (C5_create_booking (Restaurant.empty.add_table "Window" 2).2
      "Alice" "+79160000000" 1 10 20 0).2.2 0
    { booking_id := 1, guest_name := "Alice", phone := "+79160000000",
      table := 0, start_time := 10, end_time := 20, is_active := true }
    (by decide) (by decide) (by decide)

/-- C8: a successful `create_booking` leaves every table object — in
particular the target table's occupied flag and `current_booking`
reference — and the table collection unchanged; only direct/walk-in
occupation sets the flag. -/
theorem C8_create_booking_table_frame (s : Restaurant) (g p : String)
    (tid : Nat) (st et now : Int) (ref : Nat)
    (h : (s.create_booking g p tid st et now).1 = .ok (some ref)) :
    (s.create_booking g p tid st et now).2.tableHeap = s.tableHeap ∧
    (s.create_booking g p tid st et now).2.tables = s.tables ∧
    ∀ r, (s.create_booking g p tid st et now).2.tableAt r = s.tableAt r := by
  obtain ⟨h1, h2⟩ := create_booking_preserves_tables s g p tid st et now
  exact ⟨h1, h2, fun r => by simp [Restaurant.tableAt, h1]⟩

/-- C8 witness: on the concrete successful booking of the one-table
restaurant, the table heap, table list and the target table object are
untouched. -/
theorem C8_create_booking_table_frame_witness :
    ((Restaurant.empty.add_table "Window" 2).2.create_booking
        "Alice" "+79160000000" 1 10 20 0).2.tableHeap =
      (Restaurant.empty.add_table "Window" 2).2.tableHeap ∧
    ((Restaurant.empty.add_table "Window" 2).2.create_booking
        "Alice" "+79160000000" 1 10 20 0).2.tables =
      (Restaurant.empty.add_table "Window" 2).2.tables ∧
    ((Restaurant.empty.add_table "Window" 2).2.create_booking
        "Alice" "+79160000000" 1 10 20 0).2.tableAt 0 =
      (Restaurant.empty.add_table "Window" 2).2.tableAt 0 :=
  ⟨(C8_create_booking_table_frame (Restaurant.empty.add_table "Window" 2).2
      "Alice" "+79160000000" 1 10 20 0 0 (by decide)).1,
   (C8_create_booking_table_frame (Restaurant.empty.add_table "Window" 2).2
      "Alice" "+79160000000" 1 10 20 0 0 (by decide)).2.1,
   (C8_create_booking_table_frame (Restaurant.empty.add_table "Window" 2).2
      "Alice" "+79160000000" 1 10 20 0 0 (by decide)).2.2 0⟩

/-- C10: when the `Booking` constructor raises inside `create_booking`,
the restaurant state is unchanged — the booking collection and the next
booking id counter in particular. -/
theorem C10_create_booking_error_frame (s : Restaurant) (g p : String)
    (tid : Nat) (st et now : Int) (e : ValidationError)
    (h : (s.create_booking g p tid st et now).1 = .error e) :
    (s.create_booking g p tid st et now).2 = s ∧
    (s.create_booking g p tid st et now).2.bookings = s.bookings ∧
    (s.create_booking g p tid st et now).2.next_booking_id =
      s.next_booking_id := by
  have h2 : (s.create_booking g p tid st et now).2 = s := by
    unfold Restaurant.create_booking at h ⊢
    rcases hf : s.find_table_by_id tid with _ | tref
    · rfl
    · by_cases hocc : s.is_table_occupied tref st et = true
      · simp [hocc]
      · rcases hmk : mkBooking s.next_booking_id g p tref st et now
          with e2 | b
        · simp [hocc, hmk]
        · simp [hf, hocc, hmk] at h
  exact ⟨h2, by rw [h2], by rw [h2]⟩

/-- C10 witness: a blank guest name on a known, free table makes
`create_booking` propagate the error and leave the state unchanged. -/
theorem C10_create_booking_error_frame_witness :
    ((Restaurant.empty.add_table "Window" 2).2.create_booking
        "" "+79160000000" 1 10 20 0).2 =
      (Restaurant.empty.add_table "Window" 2).2 ∧
    ((Restaurant.empty.add_table "Window" 2).2.create_booking
        "" "+79160000000" 1 10 20 0).2.bookings =
      (Restaurant.empty.add_table "Window" 2).2.bookings ∧
    ((Restaurant.empty.add_table "Window" 2).2.create_booking
        "" "+79160000000" 1 10 20 0).2.next_booking_id =
      (Restaurant.empty.add_table "Window" 2).2.next_booking_id :=
  C10_create_booking_error_frame (Restaurant.empty.add_table "Window" 2).2
    "" "+79160000000" 1 10 20 0 "Guest name cannot be empty" (by decide)

/-- C7: `Booking.cancel` deactivates the booking and releases its table
exactly when the table's `current_booking` is identically (reference
equality) this booking; when the table points to a different booking
(or none), the whole table heap — occupied flags and `current_booking`
references included — is untouched. -/
theorem C7_cancel_releases_iff_current (s : Restaurant) (r : Nat)
    (h : r < s.bookingHeap.length) :
    ((s.cancelBookingObj r).bookingAt r).is_active = false ∧
    ((s.tableAt (s.bookingAt r).table).current_booking = some r →
      (s.cancelBookingObj r).tableAt (s.bookingAt r).table =
        (s.tableAt (s.bookingAt r).table).release) ∧
    ((s.tableAt (s.bookingAt r).table).current_booking ≠ some r →
      (s.cancelBookingObj r).tableHeap = s.tableHeap) := by
  refine ⟨?_, ?_, ?_⟩
  · simp only [Restaurant.cancelBookingObj]
    split
    · simp [Restaurant.setTableObj, Restaurant.setBookingObj,
        Restaurant.bookingAt, getD_set, h]
    · simp [Restaurant.setBookingObj, Restaurant.bookingAt, getD_set, h]
  · intro hcb
    simp only [Restaurant.cancelBookingObj]
    have hT : ∀ (B : BookingObj) (x : Nat),
        (s.setBookingObj r B).tableAt x = s.tableAt x := fun B x => rfl
    rw [hT]
    rw [if_pos ((beq_iff_eq).mpr hcb)]
    simp only [Restaurant.setTableObj, Restaurant.setBookingObj,
      Restaurant.tableAt, getD_set]
    by_cases htb : (s.bookingAt r).table < s.tableHeap.length
    · simp [htb]
    · simp [htb]
      rw [List.getElem?_len_le
        (by omega : s.tableHeap.length ≤ (s.bookingAt r).table)]
      decide
  · intro hcb
    simp only [Restaurant.cancelBookingObj]
    have hT : ∀ (B : BookingObj) (x : Nat),
        (s.setBookingObj r B).tableAt x = s.tableAt x := fun B x => rfl
    rw [hT]
    rw [if_neg (fun hc => hcb (beq_iff_eq.mp hc))]
    rfl

/-- C7 witness: on a concrete restaurant whose single table's
`current_booking` is booking 0, cancelling booking 0 deactivates it and
releases the table. -/
theorem C7_cancel_releases_iff_current_witness :
    ((({ tableHeap := [{ table_id := 1, name := "Window", seats := 2,
                         is_occupied := true, current_booking := some 0 }],
         bookingHeap := [{ booking_id := 1, guest_name := "Alice",
                           phone := "+79160000000", table := 0,
                           start_time := 10, end_time := 20,
                           is_active := true }],
         tables := [0], bookings := [0], next_table_id := 2,
         next_booking_id := 2 } : Restaurant).cancelBookingObj 0).bookingAt
        0).is_active = false ∧
    (({ tableHeap := [{ table_id := 1, name := "Window", seats := 2,
                        is_occupied := true, current_booking := some 0 }],
        bookingHeap := [{ booking_id := 1, guest_name := "Alice",
                          phone := "+79160000000", table := 0,
                          start_time := 10, end_time := 20,
                          is_active := true }],
        tables := [0], bookings := [0], next_table_id := 2,
        next_booking_id := 2 } : Restaurant).cancelBookingObj 0).tableAt 0 =
      (({ tableHeap := [{ table_id := 1, name := "Window", seats := 2,
                          is_occupied := true, current_booking := some 0 }],
          bookingHeap := [{ booking_id := 1, guest_name := "Alice",
                            phone := "+79160000000", table := 0,
                            start_time := 10, end_time := 20,
                            is_active := true }],
          tables := [0], bookings := [0], next_table_id := 2,
          next_booking_id := 2 } : Restaurant).tableAt 0).release :=
  ⟨(C7_cancel_releases_iff_current
      { tableHeap := [{ table_id := 1, name := "Window", seats := 2,
                        is_occupied := true, current_booking := some 0 }],
        bookingHeap := [{ booking_id := 1, guest_name := "Alice",
                          phone := "+79160000000", table := 0,
                          start_time := 10, end_time := 20,
                          is_active := true }],
        tables := [0], bookings := [0], next_table_id := 2,
        next_booking_id := 2 } 0 (by decide)).1,
   (C7_cancel_releases_iff_current
      { tableHeap := [{ table_id := 1, name := "Window", seats := 2,
                        is_occupied := true, current_booking := some 0 }],
        bookingHeap := [{ booking_id := 1, guest_name := "Alice",
                          phone := "+79160000000", table := 0,
                          start_time := 10, end_time := 20,
                          is_active := true }],
        tables := [0], bookings := [0], next_table_id := 2,
        next_booking_id := 2 } 0 (by decide)).2.1 (by decide)⟩

/-- Unfolding of the not-orphaned invariant into a membership
statement. -/
lemma bookingsNotOrphaned_iff (s : Restaurant) :
    s.bookingsNotOrphaned = true ↔
      ∀ r ∈ s.bookings, (s.bookingAt r).table ∈ s.tables := by
  simp [Restaurant.bookingsNotOrphaned, List.all_eq_true, List.contains,
    List.elem_iff]

/-- The invariant only depends on the booking list, the table list, and
each listed booking's `table` field. -/
lemma notOrphaned_congr {s s2 : Restaurant}
    (hb : s2.bookings = s.bookings) (ht : s2.tables = s.tables)
    (hA : ∀ q, (s2.bookingAt q).table = (s.bookingAt q).table)
    (hs : s.bookingsNotOrphaned = true) :
    s2.bookingsNotOrphaned = true := by
  rw [bookingsNotOrphaned_iff] at hs ⊢
  intro q hq
  rw [hb] at hq
  rw [ht, hA]
  exact hs q hq

/-- `add_table` preserves the not-orphaned invariant: bookings are
untouched and the table list only grows. -/
lemma notOrphaned_add_table (s : Restaurant) (n : String) (k : Int)
    (hs : s.bookingsNotOrphaned = true) :
    (s.add_table n k).2.bookingsNotOrphaned = true := by
  rw [bookingsNotOrphaned_iff] at hs ⊢
  intro q hq
  simp only [Restaurant.add_table] at hq ⊢
  exact List.mem_append_left _ (hs q hq)

/-- `create_booking` preserves the not-orphaned invariant: on success
the appended booking references the table that `find_table_by_id`
located in the table list. -/
lemma notOrphaned_create_booking (s : Restaurant) (g p : String)
    (tid : Nat) (st et now : Int) (hs : s.bookingsNotOrphaned = true) :
    (s.create_booking g p tid st et now).2.bookingsNotOrphaned = true := by
  unfold Restaurant.create_booking
  rcases hf : s.find_table_by_id tid with _ | tref
  · exact hs
  · by_cases hocc : s.is_table_occupied tref st et = true
    · simpa [hocc] using hs
    · rcases hmk : mkBooking s.next_booking_id g p tref st et now with e | b
      · simpa [hocc, hmk] using hs
      · simp only [hocc, hmk, Bool.false_eq_true, if_false]
        have htref : tref ∈ s.tables := List.mem_of_find?_eq_some hf
        have hbt : b.table = tref := by rw [mkBooking_ok_eq hmk]
        rw [bookingsNotOrphaned_iff] at hs ⊢
        intro q hq
        simp only [Restaurant.bookingAt] at hs ⊢
        simp only [List.mem_append, List.mem_singleton] at hq
        rw [getD_concat]
        rcases hq with hq | hq
        · by_cases h1 : q < s.bookingHeap.length
          · simpa [h1] using hs q hq
          · by_cases h2 : q = s.bookingHeap.length
            · simp [h1, h2, hbt, htref]
            · have := hs q hq
              rw [List.getD_eq_getElem?_getD,
                List.getElem?_len_le (by omega)] at this
              simpa [h1, h2] using this
        · subst hq
          simp [hbt, htref]

/-- `Booking.cancel` leaves the booking list, the table list, and every
listed booking's `table` field unchanged. -/
lemma cancelBookingObj_frame (s : Restaurant) (r : Nat) :
    (s.cancelBookingObj r).bookings = s.bookings ∧
    (s.cancelBookingObj r).tables = s.tables ∧
    ∀ q, ((s.cancelBookingObj r).bookingAt q).table =
      (s.bookingAt q).table := by
  simp only [Restaurant.cancelBookingObj]
  split
  · refine ⟨rfl, rfl, fun q => ?_⟩
    simp only [Restaurant.setTableObj, Restaurant.setBookingObj,
      Restaurant.bookingAt, getD_set]
    split
    · rename_i hc
      rw [hc.1]
    · rfl
  · refine ⟨rfl, rfl, fun q => ?_⟩
    simp only [Restaurant.setBookingObj, Restaurant.bookingAt, getD_set]
    split
    · rename_i hc
      rw [hc.1]
    · rfl

/-- C3 counterexample: the claim "removing a table that has any booking
(occupied or not) is rejected" is false.  On a one-table restaurant
with one active future booking but `occupied = false`, `remove_table`
succeeds and the booking's table reference no longer points into the
table collection — the booking is orphaned. -/
theorem C3_counterexample_booked_table_removed :
    (((Restaurant.empty.add_table "Window" 2).2.create_booking
        "Alice" "+79160000000" 1 10 20 0).2.remove_table 1).1 = true ∧
    ((Restaurant.empty.add_table "Window" 2).2.create_booking
        "Alice" "+79160000000" 1 10 20 0).2.bookings = [0] ∧
    (((Restaurant.empty.add_table "Window" 2).2.create_booking
        "Alice" "+79160000000" 1 10 20 0).2.remove_table
        1).2.bookingsNotOrphaned = false := by
  decide

/-- C3 amended: removal of an *occupied* table is always rejected
(returns false, state unchanged), and every operation other than
`remove_table` preserves the "bookings are not orphaned" invariant; a
booked-but-unoccupied table, however, can be removed by `remove_table`,
orphaning its bookings. -/
theorem C3_amended_no_orphan_except_remove (s : Restaurant) (op : Op) :
    (s.bookingsNotOrphaned = true → (∀ tid, op ≠ Op.removeTable tid) →
      (s.step op).bookingsNotOrphaned = true) ∧
    (∀ tid r, s.find_table_by_id tid = some r →
      (s.tableAt r).is_occupied = true →
      s.remove_table tid = (false, s)) := by
  constructor
  · intro hs hnr
    cases op with
    | addTable n k => exact notOrphaned_add_table s n k hs
    | removeTable i => exact absurd rfl (hnr i)
    | createBooking g p i a b2 n =>
        exact notOrphaned_create_booking s g p i a b2 n hs
    | cancelBooking i =>
        show (s.cancel_booking i).2.bookingsNotOrphaned = true
        unfold Restaurant.cancel_booking
        rcases hfb : s.bookings.find?
            (fun q => (s.bookingAt q).booking_id == i) with _ | r
        · exact hs
        · by_cases ha : (s.bookingAt r).is_active = true
          · simp only [ha, if_true]
            obtain ⟨h1, h2, h3⟩ := cancelBookingObj_frame s r
            exact notOrphaned_congr h1 h2 h3 hs
          · simpa [ha] using hs
    | occupyDirect i =>
        show (s.occupy_table_directly i).2.bookingsNotOrphaned = true
        unfold Restaurant.occupy_table_directly
        rcases hf : s.find_table_by_id i with _ | r
        · exact hs
        · by_cases ho : (s.tableAt r).is_occupied = true
          · simpa [ho] using hs
          · simp only [ho, Bool.false_eq_true, if_false]
            exact notOrphaned_congr rfl rfl (fun q => rfl) hs
    | releaseTable i =>
        show (s.release_table i).2.bookingsNotOrphaned = true
        unfold Restaurant.release_table
        rcases hf : s.find_table_by_id i with _ | r
        · exact hs
        · by_cases ho : (s.tableAt r).is_occupied = true
          · simp only [ho, if_true]
            exact notOrphaned_congr rfl rfl (fun q => rfl) hs
          · simpa [ho] using hs
  · intro tid r hf hocc
    simp [Restaurant.remove_table, hf, hocc]

/-- C3 amended witness: the invariant holds after adding a table to the
empty restaurant, and removal of the concrete occupied table is
rejected. -/
theorem C3_amended_no_orphan_except_remove_witness :
    ((Restaurant.empty.step (Op.addTable "Window" 2)).bookingsNotOrphaned =
      true) ∧
    ({ tableHeap := [{ table_id := 1, name := "Window", seats := 2,
                       is_occupied := true, current_booking := none }],
       bookingHeap := [], tables := [0], bookings := [],
       next_table_id := 2,
       next_booking_id := 1 } : Restaurant).remove_table 1 =
      (false,
       { tableHeap := [{ table_id := 1, name := "Window", seats := 2,
                         is_occupied := true, current_booking := none }],
         bookingHeap := [], tables := [0], bookings := [],
         next_table_id := 2, next_booking_id := 1 }) :=
  ⟨(C3_amended_no_orphan_except_remove Restaurant.empty
      (Op.addTable "Window" 2)).1 (by decide)
      (fun tid hc => Op.noConfusion hc),
   (C3_amended_no_orphan_except_remove
      { tableHeap := [{ table_id := 1, name := "Window", seats := 2,
                        is_occupied := true, current_booking := none }],
        bookingHeap := [], tables := [0], bookings := [],
        next_table_id := 2, next_booking_id := 1 }
      (Op.removeTable 1)).2 1 0 (by decide) (by decide)⟩

end RestaurantModel
